import Mathlib

/-!
Verification of the dbrowse interactive session engine (src/ui.py, src/utils.py,
src/database.py) against its natural-language specification.

The embedding below translates the session-state closures of
`browse_connections_ui_once` into explicit state records and pure transition
functions.  External effects are parameters: the Data Provider is modelled by
deterministic functions (`countFn`, `fetch`, a connect oracle, a listing result),
and provider calls are counted in the state where a claim is about whether a
call happens.  Machine wall-clock timestamps are passed in as opaque strings.
-/

namespace Dbrowse

/-! ### Focus router (src/ui.py tab / up key bindings)

Outside SQL-editor (console) mode the reachable focus states are the five
(`active_column`, focused window) combinations the tab handler cycles through:
(0, left connections list), (1, table search field), (1, tables list),
(2, ORDER BY field), (2, WHERE field). -/

inductive FocusState where
  | connectionList
  | schemaSearch
  | schemaList
  | dataOrderBy
  | dataWhere
deriving DecidableEq, Repr

/-- `active_column` value corresponding to each reachable focus state. -/
def activeColumnOf : FocusState → Nat
  | .connectionList => 0
  | .schemaSearch => 1
  | .schemaList => 1
  | .dataOrderBy => 2
  | .dataWhere => 2

/-- The `tab` key binding of `browse_connections_ui_once` (src/ui.py lines
751-811), restricted to the reachable focus states: first it branches on
`active_column`, then on which window has focus.  The `else` branches
(focus nowhere) coincide with the listed states' transitions. -/
def tabStep (f : FocusState) : FocusState :=
  if activeColumnOf f = 2 then
    if f = .dataOrderBy then .dataWhere
    else if f = .dataWhere then .connectionList
    else .dataOrderBy
  else if activeColumnOf f = 1 then
    if f = .schemaSearch then .schemaList
    else if f = .schemaList then .dataOrderBy
    else .dataOrderBy
  else .schemaSearch

/-- Selection state the arrow-key handlers touch besides focus
(`selected_conn_idx`, `selected_table_idx`, `table_offset`). -/
structure UIState where
  focus : FocusState
  selectedConnIdx : Int
  selectedTableIdx : Int
  tableOffset : Int
  numConns : Nat
  numTables : Nat
deriving DecidableEq, Repr

/-- The `up` key binding outside SQL-editor mode (src/ui.py lines 813-850):
focus on WHERE moves focus to ORDER BY; focus on ORDER BY or the search field
returns without touching selection; otherwise list selection moves up. -/
def upStep (s : UIState) : UIState :=
  if s.focus = .dataWhere then { s with focus := .dataOrderBy }
  else if s.focus = .dataOrderBy ∨ s.focus = .schemaSearch then s
  else if activeColumnOf s.focus = 0 ∧ 0 < s.numConns then
    { s with selectedConnIdx := max 0 (s.selectedConnIdx - 1) }
  else if activeColumnOf s.focus = 1 ∧ 0 < s.numTables then
    let i := max 0 (s.selectedTableIdx - 1)
    { s with
      selectedTableIdx := i
      tableOffset := if i < s.tableOffset then i else s.tableOffset }
  else s

/-- `handle_down_original` (src/ui.py lines 853-873): defined in the source but
never registered as a key binding.  Focus on ORDER BY would move to WHERE;
focus on WHERE or the search field returns; otherwise list selection moves
down (`windowSize` is `get_table_window_size()`). -/
def handleDownOriginal (windowSize : Int) (s : UIState) : UIState :=
  if s.focus = .dataOrderBy then { s with focus := .dataWhere }
  else if s.focus = .dataWhere ∨ s.focus = .schemaSearch then s
  else if activeColumnOf s.focus = 0 ∧ 0 < s.numConns then
    { s with selectedConnIdx := min ((s.numConns : Int) - 1) (s.selectedConnIdx + 1) }
  else if activeColumnOf s.focus = 1 ∧ 0 < s.numTables then
    let i := min ((s.numTables : Int) - 1) (s.selectedTableIdx + 1)
    { s with
      selectedTableIdx := i
      tableOffset := if s.tableOffset + windowSize ≤ i then max 0 (i - windowSize + 1)
        else s.tableOffset }
  else s

/-- The key names registered through `@kb.add(...)` in
`browse_connections_ui_once`, in source order. -/
def registeredKeyBindings : List String :=
  ["q", "c-e", "tab", "up", "c-p", "c-n", "enter", "escape", "f", "c-f", "c-m", "f5"]

/-- Effect of a `down` key press: a key with no registered binding dispatches
to no handler and leaves the session state unchanged. -/
def downKeyDispatch (windowSize : Int) (s : UIState) : UIState :=
  if registeredKeyBindings.contains "down" then handleDownOriginal windowSize s else s

/-! ### Schema object list and live text filter
(src/ui.py `load_tables_for_connection`, lines 167-222) -/

structure SchemaObject where
  schema : String
  name : String
  sizeBytes : Nat
deriving DecidableEq, Repr

/-- The label the search filter is matched against:
`t[0] + "." + t[1] if t[0] else t[1]`. -/
def objectLabel (t : SchemaObject) : String :=
  if t.schema ≠ "" then t.schema ++ "." ++ t.name else t.name

/-- `cs` starts with `needle`. -/
def charsStartWith : List Char → List Char → Bool
  | [], _ => true
  | _ :: _, [] => false
  | c :: cs, d :: ds => c = d && charsStartWith cs ds

/-- `needle` occurs contiguously in `hay` (Python `needle in hay` on strings). -/
def charsContain (needle : List Char) : List Char → Bool
  | [] => needle.isEmpty
  | c :: cs => charsStartWith needle (c :: cs) || charsContain needle cs

/-- `table_search_filter.lower() in label.lower()` (lower-casing applied
per character). -/
def matchesSearch (filt : String) (t : SchemaObject) : Bool :=
  charsContain (filt.data.map Char.toLower)
    ((objectLabel t).data.map Char.toLower)

/-- Python `str.strip()`: drop whitespace from both ends. -/
def pyStrip (s : String) : String :=
  ⟨((s.data.dropWhile Char.isWhitespace).reverse.dropWhile
      Char.isWhitespace).reverse⟩

structure SchemaPanelState where
  /-- The outer `all_tables` closure variable (src/ui.py line 118).  The loader
  rebuilds the unfiltered list in a local variable of the same name and never
  writes this one (`all_tables` is missing from the `nonlocal` list). -/
  allTables : List SchemaObject
  tables : List SchemaObject
  searchFilter : String
  selectedTableIdx : Int
  /-- Number of object-listing calls issued to the Data Provider. -/
  providerListCalls : Nat
deriving DecidableEq, Repr

/-- `load_tables_for_connection` with an open connection whose object-listing
call deterministically returns `res`.  Every invocation issues the listing
call, then applies the stored search filter to the fresh result. -/
def loadTablesForConnection (res : List SchemaObject) (s : SchemaPanelState) :
    SchemaPanelState :=
  let filtered :=
    if s.searchFilter ≠ "" then res.filter (matchesSearch s.searchFilter) else res
  { s with
    tables := filtered
    selectedTableIdx := if filtered.isEmpty then -1 else 0
    providerListCalls := s.providerListCalls + 1 }

/-- `enter` binding while the search field has focus (src/ui.py lines 924-934):
`table_search_filter = table_search_buffer.text.strip()` then reload. -/
def applyTableSearch (res : List SchemaObject) (buf : String) (s : SchemaPanelState) :
    SchemaPanelState :=
  loadTablesForConnection res { s with searchFilter := pyStrip buf }

/-- `c-f` binding with the schema panel active (src/ui.py lines 1023-1032):
it declares `nonlocal table_search_filter`, clears the session filter and the
buffer, then reloads.  The `enter` binding with an emptied search buffer
(`applyTableSearch res ""`) clears the session filter the same way. -/
def clearTableSearch (res : List SchemaObject) (s : SchemaPanelState) :
    SchemaPanelState :=
  loadTablesForConnection res { s with searchFilter := "" }

/-- `escape` binding while the search field has focus (src/ui.py lines
986-992): the handler assigns `table_search_filter = ""`, but that name is
missing from the handler's `nonlocal` list (line 953, which declares only
`current_where_clause, current_order_by_clause, sql_editor_mode`), so the
assignment binds a handler-local variable.  The session filter keeps its old
value, only the visible buffer text is cleared, and the reload re-applies the
stale filter. -/
def escapeTableSearch (res : List SchemaObject) (s : SchemaPanelState) :
    SchemaPanelState :=
  loadTablesForConnection res s

/-- A small concrete provider result used by concrete evaluations. -/
def demoObjects : List SchemaObject :=
  [⟨"public", "orders", 2048⟩, ⟨"public", "users", 1024⟩, ⟨"", "events", 0⟩]

def demoSchemaState : SchemaPanelState :=
  { allTables := [], tables := demoObjects, searchFilter := "",
    selectedTableIdx := 0, providerListCalls := 1 }

/-! ### SQL query console (src/ui.py `execute_sql_query`, lines 272-309) -/

/-- Result rows are modelled as lists of cell strings; a result set is
`(rows, column names)`. -/
abbrev QueryResult := List (List String) × List String

structure QueryConsoleState where
  results : Option QueryResult
  error : Option String
  history : List String
  /-- Number of `execute_with_description` calls issued to the Data Provider. -/
  providerExecCalls : Nat
deriving DecidableEq, Repr

/-- `execute_sql_query(query)`.  `connOpen` is whether `active_conn` /
`active_adapter` are set; `outcome` is what the deterministic provider's
`execute_with_description` would do for this query (return a result set or
raise an error message). -/
def executeSqlQuery (connOpen : Bool) (outcome : Except String QueryResult)
    (query : String) (s : QueryConsoleState) : QueryConsoleState :=
  if connOpen = false then
    { s with error := some "No database connection", results := none }
  else if pyStrip query = "" then
    { s with error := some "Empty query", results := none }
  else
    match outcome with
    | .ok rc =>
        let qc := pyStrip query
        let hist :=
          if qc ≠ "" ∧ s.history.getLast? ≠ some qc then s.history ++ [qc]
          else s.history
        let hist := if 50 < hist.length then hist.drop 1 else hist
        { results := some rc, error := none, history := hist,
          providerExecCalls := s.providerExecCalls + 1 }
    | .error e =>
        { s with error := some e, results := none,
                 providerExecCalls := s.providerExecCalls + 1 }

/-! ### SQL history navigation
(src/ui.py `up` binding in SQL-editor mode, lines 819-831) -/

structure SqlHistoryState where
  history : List String
  /-- `sql_history_index`: -1 means editing fresh text. -/
  historyIndex : Int
  /-- `sql_editor_buffer.text`. -/
  buffer : String
deriving DecidableEq, Repr

/-- The snapshot phase of the `up` handler: when the cursor is at -1 and the
stripped edit buffer is non-empty and differs from the last history entry,
append it to the history (`sql_query_history.append(current)`). -/
def snapshotEdit (s : SqlHistoryState) : SqlHistoryState :=
  if s.historyIndex < 0 then
    if pyStrip s.buffer ≠ "" ∧ s.history.getLast? ≠ some (pyStrip s.buffer) then
      { s with history := s.history ++ [pyStrip s.buffer] }
    else s
  else s

/-- The move phase of the `up` handler:
`sql_history_index = min(len(history) - 1, sql_history_index + 1)`, and when
the new index is ≥ 0 the editor buffer shows `history[-(index + 1)]`
(element `length - 1 - index`).  `origIdx` is the index before the step. -/
def olderMove (origIdx : Int) (s1 : SqlHistoryState) : SqlHistoryState :=
  if 0 ≤ min ((s1.history.length : Int) - 1) (origIdx + 1) then
    { s1 with
      historyIndex := min ((s1.history.length : Int) - 1) (origIdx + 1)
      buffer := s1.history.getD
        (s1.history.length - 1 -
          (min ((s1.history.length : Int) - 1) (origIdx + 1)).toNat) "" }
  else
    { s1 with historyIndex := min ((s1.history.length : Int) - 1) (origIdx + 1) }

/-- One "older" step: the `up` key while the SQL editor buffer has focus
(src/ui.py lines 819-831).  Does nothing when the history is empty; otherwise
snapshots the in-progress edit and moves the cursor one step toward the
oldest entry. -/
def sqlHistoryOlder (s : SqlHistoryState) : SqlHistoryState :=
  if s.history.isEmpty then s
  else olderMove s.historyIndex (snapshotEdit s)

/-- `n` successive "older" steps starting from entering the editor
(`c-e` sets `sql_history_index = -1`) with history `h` and edit buffer `b`. -/
def olderIter (h : List String) (b : String) : Nat → SqlHistoryState
  | 0 => ⟨h, -1, b⟩
  | n + 1 => sqlHistoryOlder (olderIter h b n)

/-- The history cursor stays between -1 (fresh edit) and the oldest entry. -/
def historyInv (s : SqlHistoryState) : Prop :=
  -1 ≤ s.historyIndex ∧ s.historyIndex ≤ (s.history.length : Int) - 1

/-- A console state holding a previously stored successful result. -/
def demoConsoleState : QueryConsoleState :=
  { results := some ([["1"]], ["one"]), error := none, history := ["select 1"],
    providerExecCalls := 3 }

/-! ### Data panel pagination and per-object filters
(src/ui.py `load_rows_for_table` lines 311-344, `c-p`/`c-n` bindings lines
875-890, `enter`/`escape` bindings on the WHERE / ORDER BY fields) -/

/-- `rows_per_page` (src/ui.py line 104). -/
def rowsPerPage : Nat := 10

/-- A per-object clause store (`table_where_clauses` / `table_order_by_clauses`),
as a total map defaulting to `""` (`dict.get(key, "")`). -/
def updMap (m : String × String → String) (k : String × String) (v : String) :
    String × String → String :=
  fun k2 => if k2 = k then v else m k2

structure DataPanelState where
  rowsScrollOffset : Nat
  totalRowsCount : Nat
  tableWhereClauses : String × String → String
  tableOrderByClauses : String × String → String

/-- `load_rows_for_table(where_clause, reset_offset)` for the selected object
`key`, against a deterministic provider whose COUNT query returns
`countFn whereClause`.  When `whereClause` is given it is persisted into the
WHERE store; otherwise the stored WHERE for `key` is restored.  The ORDER BY
used in the query is read from the store into a local variable (the
`current_order_by_clause` assignment inside the function is local, the name is
not in its `nonlocal` list) so no ORDER BY state changes here. -/
def loadRowsForTable (countFn : String → Nat) (key : String × String)
    (whereClause : Option String) (resetOffset : Bool) (s : DataPanelState) :
    DataPanelState :=
  let wm := match whereClause with
    | some w => updMap s.tableWhereClauses key w
    | none => s.tableWhereClauses
  let cw := match whereClause with
    | some w => w
    | none => s.tableWhereClauses key
  { rowsScrollOffset := if resetOffset then 0 else s.rowsScrollOffset
    totalRowsCount := countFn cw
    tableWhereClauses := wm
    tableOrderByClauses := s.tableOrderByClauses }

inductive DataOp where
  /-- `c-n`: next page. -/
  | pageNext
  /-- `c-p`: previous page. -/
  | pagePrev
  /-- `enter` while the WHERE field has focus, with buffer text `buf`. -/
  | commitWhere (buf : String)
  /-- `enter` while the ORDER BY field has focus, with buffer text `buf`. -/
  | commitOrder (buf : String)
deriving DecidableEq, Repr

/-- One data-panel operation on the selected object `key`.  The commit
handlers persist the trimmed buffer into the per-object store only when both
the schema and the name are non-empty (`if schema and table:`); the WHERE
commit additionally persists through `load_rows_for_table(new_where)`
unconditionally. -/
def dataStep (countFn : String → Nat) (key : String × String)
    (s : DataPanelState) : DataOp → DataPanelState
  | .pageNext =>
      if 0 < s.totalRowsCount ∧ s.rowsScrollOffset + rowsPerPage < s.totalRowsCount then
        loadRowsForTable countFn key none false
          { s with rowsScrollOffset := s.rowsScrollOffset + rowsPerPage }
      else s
  | .pagePrev =>
      if 0 < s.rowsScrollOffset then
        loadRowsForTable countFn key none false
          { s with rowsScrollOffset := s.rowsScrollOffset - rowsPerPage }
      else s
  | .commitWhere buf =>
      let w := pyStrip buf
      let s1 := if key.1 ≠ "" ∧ key.2 ≠ "" then
          { s with tableWhereClauses := updMap s.tableWhereClauses key w }
        else s
      loadRowsForTable countFn key (some w) true s1
  | .commitOrder buf =>
      let ob := pyStrip buf
      let s1 := if key.1 ≠ "" ∧ key.2 ≠ "" then
          { s with tableOrderByClauses := updMap s.tableOrderByClauses key ob }
        else s
      loadRowsForTable countFn key none true s1

/-- Selecting a table afresh: `load_rows_for_table()` with default arguments. -/
def freshTableSelection (countFn : String → Nat) (key : String × String)
    (s : DataPanelState) : DataPanelState :=
  loadRowsForTable countFn key none true s

def runDataOps (countFn : String → Nat) (key : String × String)
    (s : DataPanelState) (ops : List DataOp) : DataPanelState :=
  ops.foldl (dataStep countFn key) s

/-- The invariant tying `total_rows_count` to the deterministic provider and
constraining the pagination offset. -/
def dataInv (countFn : String → Nat) (key : String × String)
    (s : DataPanelState) : Prop :=
  s.rowsScrollOffset % rowsPerPage = 0 ∧
    s.rowsScrollOffset ≤ max 0 (s.totalRowsCount - 1) ∧
    s.totalRowsCount = countFn (s.tableWhereClauses key)

/-- A data-panel state for a freshly selected empty MongoDB collection
(collections are listed with an empty schema, src/database.py line 300). -/
def demoDataState : DataPanelState :=
  { rowsScrollOffset := 0, totalRowsCount := 0,
    tableWhereClauses := fun _ => "", tableOrderByClauses := fun _ => "" }

/-! ### Connection lifecycle (src/ui.py `set_active_connection` lines 133-158
and the `finally` block lines 1425-1433) -/

structure ConnectionState where
  /-- `active_conn`: the open handle, tagged by its connection index. -/
  activeConn : Option Nat
  /-- `active_conn_idx`. -/
  activeConnIdx : Int
  /-- Number of Data Provider handles currently open (opened and not closed). -/
  openHandles : Nat
deriving DecidableEq, Repr

/-- `set_active_connection(idx)` over `numConns` saved connections, where
`connectOk i` says whether `connect(connections[i])` succeeds.  Returns the
new state and the boolean result. -/
def setActiveConnection (numConns : Nat) (connectOk : Nat → Bool) (idx : Int)
    (s : ConnectionState) : ConnectionState × Bool :=
  if idx < 0 ∨ (numConns : Int) ≤ idx then (s, false)
  else if s.activeConn.isSome ∧ s.activeConnIdx = idx then (s, true)
  else
    let s1 := if s.activeConn.isSome then
        { activeConn := none, activeConnIdx := -1, openHandles := s.openHandles - 1 }
      else s
    if connectOk idx.toNat then
      ({ activeConn := some idx.toNat, activeConnIdx := idx,
         openHandles := s1.openHandles + 1 }, true)
    else
      ({ activeConn := none, activeConnIdx := -1, openHandles := s1.openHandles },
       false)

/-- The `finally` block of `browse_connections_ui_once`: closes the handle when
one is open, on every exit path. -/
def endSession (s : ConnectionState) : ConnectionState :=
  if s.activeConn.isSome then
    { activeConn := none, activeConnIdx := -1, openHandles := s.openHandles - 1 }
  else { activeConn := none, activeConnIdx := -1, openHandles := s.openHandles }

/-- The single handle owned by the session accounts for every open handle. -/
def connInv (s : ConnectionState) : Prop :=
  s.openHandles = (if s.activeConn.isSome then 1 else 0)

/-- Session start: no open handle. -/
def initialConnectionState : ConnectionState :=
  ⟨none, -1, 0⟩

def runSelects (numConns : Nat) (connectOk : Nat → Bool) (ops : List Int) :
    ConnectionState :=
  ops.foldl (fun s i => (setActiveConnection numConns connectOk i s).1)
    initialConnectionState

/-! ### Per-object metadata cache (src/ui.py `load_table_details` lines 224-270
and the double-click toggle in `tables_mouse_handler` lines 1126-1130) -/

/-- `{"columns": [...], "indexes": [...]}`. -/
abbrev TableDetails := List String × List String

/-- `table_details`, keyed by `(schema, table)`. -/
abbrev MetaCache := String × String → Option TableDetails

/-- `load_table_details(schema, table)`: no-op without an open connection or
when the key is already cached; otherwise fetch columns and indexes from the
deterministic provider `fetch` and insert. -/
def loadTableDetails (connOpen : Bool) (fetch : String × String → TableDetails)
    (k : String × String) (c : MetaCache) : MetaCache :=
  if connOpen = false then c
  else if (c k).isSome then c
  else fun k2 => if k2 = k then some (fetch k) else c k2

/-- The double-click branch of `tables_mouse_handler`: evict if cached,
otherwise load. -/
def toggleDetails (connOpen : Bool) (fetch : String × String → TableDetails)
    (k : String × String) (c : MetaCache) : MetaCache :=
  if (c k).isSome then fun k2 => if k2 = k then none else c k2
  else loadTableDetails connOpen fetch k c

/-- Every cache state the session can build: a sequence of toggles (each with
its own connection-openness and key) applied to the empty cache.  Reloading
the object list clears the cache, i.e. restarts from the empty cache. -/
def toggleRun (fetch : String × String → TableDetails)
    (ops : List (Bool × (String × String))) : MetaCache :=
  ops.foldl (fun c p => toggleDetails p.1 fetch p.2 c) (fun _ => none)

/-- Every value stored in the cache agrees with the deterministic provider. -/
def cacheConsistent (fetch : String × String → TableDetails) (c : MetaCache) :
    Prop :=
  ∀ k v, c k = some v → v = fetch k

/-! ### Status log and export actions (src/utils.py `push_status`,
src/ui.py `export_to_csv` lines 1180-1218 and `export_to_json` lines 1220-1271) -/

/-- `MAX_STATUS_MESSAGES` (src/utils.py line 9). -/
def maxStatusMessages : Nat := 30

/-- `push_status(message)`: append `"[{timestamp}] {message}"` and evict the
oldest entries beyond the cap.  The wall-clock timestamp is a parameter. -/
def pushStatus (ts msg : String) (log : List String) : List String :=
  let l := log ++ ["[" ++ ts ++ "] " ++ msg]
  if maxStatusMessages < l.length then l.drop (l.length - maxStatusMessages) else l

/-- The session state an export action reads and may write.  `rows` and
`columns` are the current data page; `statusLog` is the process-wide log. -/
structure ExportState where
  rows : List (List String)
  columns : List String
  statusLog : List String
deriving DecidableEq, Repr

/-- `f"{cfg.name}_{table_name}_{timestamp}.{ext}"` with
`table_name = table or "data"`. -/
def exportFileName (connName tableName ext tsFile : String) : String :=
  connName ++ "_" ++ (if tableName = "" then "data" else tableName) ++ "_" ++
    tsFile ++ "." ++ ext

/-- `export_to_csv`: with no rows or no columns, log "No data to export" and
write nothing; otherwise write header plus rows to the generated file name and
log the export.  The returned option is the written file (name, payload);
cell cleaning inside the written payload is not modelled (no claim reads it). -/
def exportToCsv (connName tableName tsFile tsLog : String) (s : ExportState) :
    ExportState × Option (String × List (List String)) :=
  if s.rows.isEmpty ∨ s.columns.isEmpty then
    ({ s with statusLog := pushStatus tsLog "No data to export" s.statusLog }, none)
  else
    let fname := exportFileName connName tableName "csv" tsFile
    ({ s with statusLog := pushStatus tsLog ("Exported to " ++ fname) s.statusLog },
     some (fname, s.columns :: s.rows))

/-- `export_to_json`: same no-data guard; otherwise writes one object per row
(column/value pairs) to the generated file name. -/
def exportToJson (connName tableName tsFile tsLog : String) (s : ExportState) :
    ExportState × Option (String × List (List (String × String))) :=
  if s.rows.isEmpty ∨ s.columns.isEmpty then
    ({ s with statusLog := pushStatus tsLog "No data to export" s.statusLog }, none)
  else
    let fname := exportFileName connName tableName "json" tsFile
    ({ s with statusLog := pushStatus tsLog ("Exported to " ++ fname) s.statusLog },
     some (fname, s.rows.map fun r => s.columns.zip r))

/-! ## Theorems -/

/-- Claim C3, as stated, is false at a concrete input: starting from
ConnectionList and forward-cycling focus six times ends on SchemaSearch, not
back on ConnectionList (the cycle has five states, not six). -/
theorem C3_counterexample :
    tabStep^[6] FocusState.connectionList ≠ FocusState.connectionList := by
  decide

/-- Claim C3 (amended): for every FocusState reachable outside console mode,
applying the forward focus-cycle operation FIVE times returns the session to
the starting FocusState, the cycle visiting panels in the order
ConnectionList → SchemaSearch → SchemaList → DataOrderBy → DataWhere →
ConnectionList. -/
theorem C3_focus_cycle_period_five :
    (∀ f : FocusState, tabStep^[5] f = f) ∧
    tabStep .connectionList = .schemaSearch ∧
    tabStep .schemaSearch = .schemaList ∧
    tabStep .schemaList = .dataOrderBy ∧
    tabStep .dataOrderBy = .dataWhere ∧
    tabStep .dataWhere = .connectionList := by
  refine ⟨fun f => ?_, rfl, rfl, rfl, rfl, rfl⟩
  cases f <;> rfl

/-- Claim C4 (code bug): the source defines `handle_down_original`, which would
move focus from DataOrderBy to DataWhere without touching list selection, and
the comment above it says the handler was "moved above" — but no `down` key
binding is ever registered, so a "down" key event leaves the whole state
unchanged.  The "up" half of the claim does hold: from DataWhere, "up" moves
focus to DataOrderBy with list selections unchanged. -/
theorem C4_down_binding_missing :
    registeredKeyBindings.contains "down" = false ∧
    (∀ (w : Int) (s : UIState), downKeyDispatch w s = s) ∧
    (∀ (w : Int) (s : UIState), s.focus = FocusState.dataOrderBy →
      (handleDownOriginal w s).focus = FocusState.dataWhere ∧
      (handleDownOriginal w s).selectedConnIdx = s.selectedConnIdx ∧
      (handleDownOriginal w s).selectedTableIdx = s.selectedTableIdx) ∧
    (∀ s : UIState, s.focus = FocusState.dataWhere →
      (upStep s).focus = FocusState.dataOrderBy ∧
      (upStep s).selectedConnIdx = s.selectedConnIdx ∧
      (upStep s).selectedTableIdx = s.selectedTableIdx) := by
  refine ⟨rfl, fun w s => rfl, fun w s hf => ?_, fun s hf => ?_⟩
  · simp [handleDownOriginal, hf]
  · simp [upStep, hf]

/-- Concrete instantiation of `C4_down_binding_missing`: with focus on the
ORDER BY field, the dispatched "down" event changes nothing, while the
unregistered handler would have moved focus to WHERE. -/
theorem C4_down_binding_missing_witness :
    downKeyDispatch 20 ⟨.dataOrderBy, 0, 0, 0, 1, 1⟩ =
      (⟨.dataOrderBy, 0, 0, 0, 1, 1⟩ : UIState) ∧
    (handleDownOriginal 20 ⟨.dataOrderBy, 0, 0, 0, 1, 1⟩).focus =
      FocusState.dataWhere ∧
    (upStep ⟨.dataWhere, 0, 0, 0, 1, 1⟩).focus = FocusState.dataOrderBy :=
  ⟨C4_down_binding_missing.2.1 20 _,
   (C4_down_binding_missing.2.2.1 20 ⟨.dataOrderBy, 0, 0, 0, 1, 1⟩ rfl).1,
   (C4_down_binding_missing.2.2.2 ⟨.dataWhere, 0, 0, 0, 1, 1⟩ rfl).1⟩

/-- Claim C1, as stated, is false at a concrete input: after filtering the
demo object list by "ord", the cited clearing path — the escape binding —
neither restores the full object list (its `table_search_filter = ""`
assignment is not `nonlocal`, so the reload re-applies the stale filter and
the list stays filtered) nor avoids a Data Provider object-listing call. -/
theorem C1_counterexample :
    (escapeTableSearch demoObjects
        (applyTableSearch demoObjects "ord" demoSchemaState)).tables ≠
      demoObjects ∧
    (escapeTableSearch demoObjects
        (applyTableSearch demoObjects "ord" demoSchemaState)).providerListCalls ≠
      (applyTableSearch demoObjects "ord" demoSchemaState).providerListCalls := by
  decide

/-- Claim C1 (amended): applying a non-empty text filter selects exactly the
objects whose "schema.name" (or bare "name" when the schema is empty) contains
the filter case-insensitively, and leaves the retained unfiltered-list
variable unchanged.  Applying an empty filter afterwards through the search
field's Enter binding, or through the Ctrl+F clear binding, restores the full
object list in provider order — but by issuing a fresh Data Provider
object-listing call, not from the retained list.  The Escape binding does not
restore the list at all: lacking a `nonlocal` declaration for the filter, it
leaves the session filter set, re-issues the listing call, and the list stays
filtered by the stale filter. -/
theorem C1_filter_and_clear (res : List SchemaObject) (buf : String)
    (s : SchemaPanelState) (hne : pyStrip buf ≠ "") :
    (applyTableSearch res buf s).tables =
      res.filter (matchesSearch (pyStrip buf)) ∧
    (applyTableSearch res buf s).allTables = s.allTables ∧
    (applyTableSearch res "" (applyTableSearch res buf s)).tables = res ∧
    (clearTableSearch res (applyTableSearch res buf s)).tables = res ∧
    (clearTableSearch res (applyTableSearch res buf s)).providerListCalls =
      s.providerListCalls + 2 ∧
    (escapeTableSearch res (applyTableSearch res buf s)).searchFilter =
      pyStrip buf ∧
    (escapeTableSearch res (applyTableSearch res buf s)).tables =
      res.filter (matchesSearch (pyStrip buf)) ∧
    (escapeTableSearch res (applyTableSearch res buf s)).providerListCalls =
      s.providerListCalls + 2 := by
  have h0 : pyStrip "" = "" := rfl
  unfold applyTableSearch clearTableSearch escapeTableSearch
    loadTablesForConnection
  simp [hne, h0]

/-- Concrete instantiation of `C1_filter_and_clear` on the demo objects. -/
theorem C1_filter_and_clear_witness :
    (applyTableSearch demoObjects "ORD" demoSchemaState).tables =
      demoObjects.filter (matchesSearch (pyStrip "ORD")) ∧
    (clearTableSearch demoObjects
        (applyTableSearch demoObjects "ORD" demoSchemaState)).tables =
      demoObjects ∧
    (escapeTableSearch demoObjects
        (applyTableSearch demoObjects "ORD" demoSchemaState)).tables =
      demoObjects.filter (matchesSearch (pyStrip "ORD")) := by
  have h := C1_filter_and_clear demoObjects "ORD" demoSchemaState (by decide)
  exact ⟨h.1, h.2.2.2.1, h.2.2.2.2.2.2.1⟩

/-- Claim C2, as stated, is false at a concrete input: executing a blank query
with a connection open clears the previously stored successful result set
(`sql_query_results = None`) instead of leaving it untouched, and executing
with no connection open reports "No database connection", not an "empty
query" error. -/
theorem C2_counterexample :
    ((executeSqlQuery true (.ok ([], [])) "   " demoConsoleState).results = none ∧
      demoConsoleState.results ≠ none) ∧
    (executeSqlQuery false (.ok ([], [])) "select 1" demoConsoleState).error ≠
      some "Empty query" := by
  decide

/-- Claim C2 (amended): executing a blank (empty or whitespace-only) query, or
executing while no connection is open, performs no Data Provider call and
stores an error ("No database connection" when no connection is open,
otherwise "Empty query" for blank text), while setting the stored result set
to absent — the error replaces any previously stored successful result —
and leaving the query history unchanged. -/
theorem C2_rejected_execution (connOpen : Bool)
    (outcome : Except String QueryResult) (q : String) (s : QueryConsoleState)
    (h : connOpen = false ∨ pyStrip q = "") :
    (executeSqlQuery connOpen outcome q s).providerExecCalls =
      s.providerExecCalls ∧
    (executeSqlQuery connOpen outcome q s).results = none ∧
    (executeSqlQuery connOpen outcome q s).error =
      some (if connOpen then "Empty query" else "No database connection") ∧
    (executeSqlQuery connOpen outcome q s).history = s.history := by
  rcases h with h | h
  · simp [executeSqlQuery, h]
  · cases connOpen <;> simp [executeSqlQuery, h]

/-- Concrete instantiation of `C2_rejected_execution` on a blank query. -/
theorem C2_rejected_execution_witness :
    (executeSqlQuery true (.ok ([], [])) "   " demoConsoleState).results = none ∧
    (executeSqlQuery true (.ok ([], [])) "   " demoConsoleState).error =
      some "Empty query" := by
  have h := C2_rejected_execution true (.ok ([], [])) "   " demoConsoleState
    (Or.inr (by decide))
  exact ⟨h.2.1, by simpa using h.2.2.1⟩

/-- Claim C9: after every console execute operation exactly one of the stored
result set and the stored error is present — a successful execution stores the
provider's (rows, columns) and clears the error, while a blank query, a
missing connection, or a provider error stores the error string and sets the
result set to absent. -/
theorem C9_result_error_exclusive (connOpen : Bool)
    (outcome : Except String QueryResult) (q : String) (s : QueryConsoleState) :
    ((executeSqlQuery connOpen outcome q s).results.isSome = true ↔
      (executeSqlQuery connOpen outcome q s).error = none) ∧
    (connOpen = true → pyStrip q ≠ "" →
      (∀ rc, outcome = .ok rc →
        (executeSqlQuery connOpen outcome q s).results = some rc ∧
        (executeSqlQuery connOpen outcome q s).error = none) ∧
      (∀ e, outcome = .error e →
        (executeSqlQuery connOpen outcome q s).error = some e ∧
        (executeSqlQuery connOpen outcome q s).results = none)) := by
  cases connOpen <;> rcases outcome with rc | e <;>
    by_cases hq : pyStrip q = "" <;>
      simp [executeSqlQuery, hq]

/-- Concrete instantiation of `C9_result_error_exclusive` on a successful and
a failing execution. -/
theorem C9_result_error_exclusive_witness :
    (executeSqlQuery true (.ok ([["2"]], ["two"])) "select 2"
        demoConsoleState).results = some ([["2"]], ["two"]) ∧
    (executeSqlQuery true (.error "syntax error") "select x"
        demoConsoleState).results = none :=
  ⟨((C9_result_error_exclusive true (.ok ([["2"]], ["two"])) "select 2"
        demoConsoleState).2 rfl (by decide)).1 _ rfl |>.1,
   ((C9_result_error_exclusive true (.error "syntax error") "select x"
        demoConsoleState).2 rfl (by decide)).2 _ rfl |>.2⟩

/-! ### Data panel invariant lemmas -/

/-- `load_rows_for_table` with no committed clause, written out as a record. -/
theorem loadRows_restore (countFn : String → Nat) (key : String × String)
    (r : Bool) (s : DataPanelState) :
    loadRowsForTable countFn key none r s =
      { rowsScrollOffset := if r then 0 else s.rowsScrollOffset,
        totalRowsCount := countFn (s.tableWhereClauses key),
        tableWhereClauses := s.tableWhereClauses,
        tableOrderByClauses := s.tableOrderByClauses } := rfl

/-- `load_rows_for_table` with a committed WHERE clause, written out. -/
theorem loadRows_commit (countFn : String → Nat) (key : String × String)
    (w : String) (r : Bool) (s : DataPanelState) :
    loadRowsForTable countFn key (some w) r s =
      { rowsScrollOffset := if r then 0 else s.rowsScrollOffset,
        totalRowsCount := countFn w,
        tableWhereClauses := updMap s.tableWhereClauses key w,
        tableOrderByClauses := s.tableOrderByClauses } := rfl

theorem dataInv_fresh (countFn : String → Nat) (key : String × String)
    (s : DataPanelState) :
    dataInv countFn key (freshTableSelection countFn key s) := by
  refine ⟨?_, ?_, ?_⟩ <;>
    simp [freshTableSelection, loadRows_restore, dataInv]

theorem dataInv_step (countFn : String → Nat) (key : String × String)
    (s : DataPanelState) (op : DataOp) (h : dataInv countFn key s) :
    dataInv countFn key (dataStep countFn key s op) := by
  obtain ⟨h1, h2, h3⟩ := h
  cases op with
  | pageNext =>
      by_cases hg : 0 < s.totalRowsCount ∧
          s.rowsScrollOffset + rowsPerPage < s.totalRowsCount
      · have e : dataStep countFn key s .pageNext =
            loadRowsForTable countFn key none false
              { s with rowsScrollOffset := s.rowsScrollOffset + rowsPerPage } := by
          simp only [dataStep, if_pos hg]
        rw [e, loadRows_restore]
        simp only [rowsPerPage] at h1 hg
        refine ⟨?_, ?_, rfl⟩ <;> simp [rowsPerPage] <;> omega
      · have e : dataStep countFn key s .pageNext = s := by
          simp only [dataStep, if_neg hg]
        rw [e]
        exact ⟨h1, h2, h3⟩
  | pagePrev =>
      by_cases hg : 0 < s.rowsScrollOffset
      · have e : dataStep countFn key s .pagePrev =
            loadRowsForTable countFn key none false
              { s with rowsScrollOffset := s.rowsScrollOffset - rowsPerPage } := by
          simp only [dataStep, if_pos hg]
        rw [e, loadRows_restore]
        simp only [rowsPerPage] at h1 h2
        refine ⟨?_, ?_, rfl⟩ <;> simp [rowsPerPage] <;> omega
      · have e : dataStep countFn key s .pagePrev = s := by
          simp only [dataStep, if_neg hg]
        rw [e]
        exact ⟨h1, h2, h3⟩
  | commitWhere buf =>
      have e : dataStep countFn key s (.commitWhere buf) =
          loadRowsForTable countFn key (some (pyStrip buf)) true
            (if key.1 ≠ "" ∧ key.2 ≠ "" then
              { s with tableWhereClauses :=
                  updMap s.tableWhereClauses key (pyStrip buf) }
            else s) := by
        simp only [dataStep]
      rw [e, loadRows_commit]
      refine ⟨by simp, by simp, by simp [updMap]⟩
  | commitOrder buf =>
      have e : dataStep countFn key s (.commitOrder buf) =
          loadRowsForTable countFn key none true
            (if key.1 ≠ "" ∧ key.2 ≠ "" then
              { s with tableOrderByClauses :=
                  updMap s.tableOrderByClauses key (pyStrip buf) }
            else s) := by
        simp only [dataStep]
      rw [e, loadRows_restore]
      exact ⟨by simp, by simp, rfl⟩

theorem dataInv_run (countFn : String → Nat) (key : String × String)
    (s : DataPanelState) (ops : List DataOp) (h : dataInv countFn key s) :
    dataInv countFn key (runDataOps countFn key s ops) := by
  induction ops generalizing s with
  | nil => exact h
  | cons op rest ih => exact ih (dataStep countFn key s op) (dataInv_step countFn key s op h)

/-- Claim C5, as stated, is false at a concrete input: for an object with an
empty schema (a MongoDB collection), committing an ORDER BY clause does not
persist it into that object's FilterState — the handler guards the store
update with `if schema and table:`, which fails for an empty schema string.
Offset reset still happens, but the clause is lost. -/
theorem C5_counterexample :
    (dataStep (fun _ => 0) ("", "events") demoDataState
        (.commitOrder "id DESC")).tableOrderByClauses ("", "events") ≠
      "id DESC" := by
  decide

/-- Claim C5 (amended): for every sequence of page-forward, page-backward and
filter/order-by commit operations starting from a fresh table selection
(against a deterministic provider), the pagination offset is always a multiple
of pageSize and satisfies offset ≤ max(0, totalCount − 1); committing a
whereClause resets the offset to 0 and persists the trimmed clause into that
object's FilterState; committing an orderByClause resets the offset to 0 and
persists the trimmed clause only when the object's schema and name are both
non-empty (for schema-less objects such as document collections the ORDER BY
clause is not persisted); neither commit changes any other object's filters. -/
theorem C5_pagination_and_filter_commit (countFn : String → Nat)
    (key : String × String) (s0 : DataPanelState) (ops : List DataOp) :
    ((runDataOps countFn key (freshTableSelection countFn key s0)
        ops).rowsScrollOffset % rowsPerPage = 0 ∧
      (runDataOps countFn key (freshTableSelection countFn key s0)
        ops).rowsScrollOffset ≤
        max 0 ((runDataOps countFn key (freshTableSelection countFn key s0)
          ops).totalRowsCount - 1)) ∧
    (∀ (buf : String) (s : DataPanelState),
      (dataStep countFn key s (.commitWhere buf)).rowsScrollOffset = 0 ∧
      (dataStep countFn key s (.commitWhere buf)).tableWhereClauses key =
        pyStrip buf ∧
      (∀ k2, k2 ≠ key →
        (dataStep countFn key s (.commitWhere buf)).tableWhereClauses k2 =
          s.tableWhereClauses k2 ∧
        (dataStep countFn key s (.commitWhere buf)).tableOrderByClauses k2 =
          s.tableOrderByClauses k2)) ∧
    (∀ (buf : String) (s : DataPanelState),
      (dataStep countFn key s (.commitOrder buf)).rowsScrollOffset = 0 ∧
      (key.1 ≠ "" ∧ key.2 ≠ "" →
        (dataStep countFn key s (.commitOrder buf)).tableOrderByClauses key =
          pyStrip buf) ∧
      (∀ k2, k2 ≠ key →
        (dataStep countFn key s (.commitOrder buf)).tableWhereClauses k2 =
          s.tableWhereClauses k2 ∧
        (dataStep countFn key s (.commitOrder buf)).tableOrderByClauses k2 =
          s.tableOrderByClauses k2)) := by
  have hinv := dataInv_run countFn key (freshTableSelection countFn key s0) ops
    (dataInv_fresh countFn key s0)
  have ew : ∀ (buf : String) (s : DataPanelState),
      dataStep countFn key s (.commitWhere buf) =
        loadRowsForTable countFn key (some (pyStrip buf)) true
          (if key.1 ≠ "" ∧ key.2 ≠ "" then
            { s with tableWhereClauses :=
                updMap s.tableWhereClauses key (pyStrip buf) }
          else s) := by
    intro buf s
    simp only [dataStep]
  have eo : ∀ (buf : String) (s : DataPanelState),
      dataStep countFn key s (.commitOrder buf) =
        loadRowsForTable countFn key none true
          (if key.1 ≠ "" ∧ key.2 ≠ "" then
            { s with tableOrderByClauses :=
                updMap s.tableOrderByClauses key (pyStrip buf) }
          else s) := by
    intro buf s
    simp only [dataStep]
  refine ⟨⟨hinv.1, hinv.2.1⟩, fun buf s => ?_, fun buf s => ?_⟩
  · rw [ew, loadRows_commit]
    by_cases hcond : key.1 ≠ "" ∧ key.2 ≠ ""
    · exact ⟨by simp, by simp [hcond, updMap],
        fun k2 hk2 => by simp [hcond, updMap, hk2]⟩
    · exact ⟨by simp, by simp [hcond, updMap],
        fun k2 hk2 => by simp [hcond, updMap, hk2]⟩
  · rw [eo, loadRows_restore]
    by_cases hcond : key.1 ≠ "" ∧ key.2 ≠ ""
    · exact ⟨by simp, fun _ => by simp [hcond, updMap],
        fun k2 hk2 => by simp [hcond, updMap, hk2]⟩
    · exact ⟨by simp, fun hc => absurd hc hcond,
        fun k2 hk2 => by simp [hcond, updMap, hk2]⟩

/-- Concrete instantiation of `C5_pagination_and_filter_commit`: paging twice
forward on a ninety-five-row table and the commit behavior at a
schema-qualified key. -/
theorem C5_pagination_and_filter_commit_witness :
    ((runDataOps (fun _ => 95) ("public", "users")
        (freshTableSelection (fun _ => 95) ("public", "users") demoDataState)
        [.pageNext, .pageNext]).rowsScrollOffset % rowsPerPage = 0) ∧
    (dataStep (fun _ => 95) ("public", "users") demoDataState
        (.commitOrder "id")).tableOrderByClauses ("public", "users") =
      pyStrip "id" :=
  ⟨(C5_pagination_and_filter_commit (fun _ => 95) ("public", "users")
      demoDataState [.pageNext, .pageNext]).1.1,
   ((C5_pagination_and_filter_commit (fun _ => 95) ("public", "users")
      demoDataState []).2.2 "id" demoDataState).2.1 (by decide)⟩

/-! ### Connection lifecycle lemmas -/

theorem connInv_setActive (numConns : Nat) (connectOk : Nat → Bool) (idx : Int)
    (s : ConnectionState) (h : connInv s) :
    connInv (setActiveConnection numConns connectOk idx s).1 := by
  by_cases hb : idx < 0 ∨ (numConns : Int) ≤ idx
  · simpa [setActiveConnection, hb] using h
  by_cases hsame : s.activeConn.isSome ∧ s.activeConnIdx = idx
  · simpa [setActiveConnection, hb, hsame] using h
  by_cases hok : connectOk idx.toNat
  · cases hA : s.activeConn with
    | none =>
        have h0 : s.openHandles = 0 := by simpa [connInv, hA] using h
        simp [setActiveConnection, hb, hsame, hok, hA, connInv, h0]
    | some a =>
        have hne : s.activeConnIdx ≠ idx := fun he => hsame ⟨by simp [hA], he⟩
        have h1 : s.openHandles = 1 := by simpa [connInv, hA] using h
        simp [setActiveConnection, hb, hne, hok, hA, connInv, h1]
  · cases hA : s.activeConn with
    | none =>
        have h0 : s.openHandles = 0 := by simpa [connInv, hA] using h
        simp [setActiveConnection, hb, hsame, hok, hA, connInv, h0]
    | some a =>
        have hne : s.activeConnIdx ≠ idx := fun he => hsame ⟨by simp [hA], he⟩
        have h1 : s.openHandles = 1 := by simpa [connInv, hA] using h
        simp [setActiveConnection, hb, hne, hok, hA, connInv, h1]

theorem connInv_runSelects (numConns : Nat) (connectOk : Nat → Bool)
    (ops : List Int) : connInv (runSelects numConns connectOk ops) := by
  have base : connInv initialConnectionState := rfl
  suffices hgen : ∀ (l : List Int) (s : ConnectionState), connInv s →
      connInv (l.foldl (fun s i => (setActiveConnection numConns connectOk i s).1) s) by
    exact hgen ops initialConnectionState base
  intro l
  induction l with
  | nil => exact fun s hs => hs
  | cons i rest ih =>
      exact fun s hs => ih _ (connInv_setActive numConns connectOk i s hs)

theorem endSession_closes (s : ConnectionState) (h : connInv s) :
    (endSession s).openHandles = 0 := by
  unfold endSession
  cases hA : s.activeConn with
  | none => simpa [connInv, hA] using h
  | some a =>
      have h1 : s.openHandles = 1 := by simpa [connInv, hA] using h
      simp [hA, h1]

theorem setActive_failed (numConns : Nat) (connectOk : Nat → Bool) (idx : Int)
    (s : ConnectionState) (h : connInv s) (h0 : 0 ≤ idx)
    (hlt : idx < (numConns : Int))
    (hfail : (setActiveConnection numConns connectOk idx s).2 = false) :
    (setActiveConnection numConns connectOk idx s).1.activeConn = none ∧
    (setActiveConnection numConns connectOk idx s).1.openHandles = 0 := by
  have hb : ¬(idx < 0 ∨ (numConns : Int) ≤ idx) := by omega
  by_cases hsame : s.activeConn.isSome ∧ s.activeConnIdx = idx
  · simp [setActiveConnection, hb, hsame] at hfail
  by_cases hok : connectOk idx.toNat
  · cases hA : s.activeConn with
    | none =>
        simp [setActiveConnection, hb, hsame, hok, hA] at hfail
    | some a =>
        have hne : s.activeConnIdx ≠ idx := fun he => hsame ⟨by simp [hA], he⟩
        simp [setActiveConnection, hb, hne, hok, hA] at hfail
  · cases hA : s.activeConn with
    | none =>
        have hz : s.openHandles = 0 := by simpa [connInv, hA] using h
        simp [setActiveConnection, hb, hsame, hok, hA, hz]
    | some a =>
        have hne : s.activeConnIdx ≠ idx := fun he => hsame ⟨by simp [hA], he⟩
        have h1 : s.openHandles = 1 := by simpa [connInv, hA] using h
        simp [setActiveConnection, hb, hne, hok, hA, h1]

/-- Claim C6: in every reachable session state at most one Data Provider
handle is open — every switch closes the previous handle before connecting,
a failed connect (on an in-bounds index) leaves no open handle, and ending
the session closes the handle, leaving zero open handles. -/
theorem C6_single_open_handle (numConns : Nat) (connectOk : Nat → Bool)
    (ops : List Int) :
    (runSelects numConns connectOk ops).openHandles ≤ 1 ∧
    (endSession (runSelects numConns connectOk ops)).openHandles = 0 ∧
    (∀ (idx : Int) (s : ConnectionState), connInv s → 0 ≤ idx →
      idx < (numConns : Int) →
      (setActiveConnection numConns connectOk idx s).2 = false →
      (setActiveConnection numConns connectOk idx s).1.activeConn = none ∧
      (setActiveConnection numConns connectOk idx s).1.openHandles = 0) := by
  have hinv := connInv_runSelects numConns connectOk ops
  refine ⟨?_, endSession_closes _ hinv,
    fun idx s hs h0 hlt hfail => setActive_failed numConns connectOk idx s hs h0 hlt hfail⟩
  rw [connInv] at hinv
  rw [hinv]
  split <;> omega

/-- Concrete instantiation of `C6_single_open_handle`: two connections where
the second always fails to connect; selecting 0 then 1 leaves no open handle,
and the bound holds throughout. -/
theorem C6_single_open_handle_witness :
    (runSelects 2 (fun i => i == 0) [0, 1]).openHandles ≤ 1 ∧
    (setActiveConnection 2 (fun i => i == 0) 1 initialConnectionState).1.activeConn
      = none :=
  ⟨(C6_single_open_handle 2 (fun i => i == 0) [0, 1]).1,
   ((C6_single_open_handle 2 (fun i => i == 0) []).2.2 1 initialConnectionState
      rfl (by decide) (by decide) (by decide)).1⟩

/-! ### Metadata cache lemmas -/

theorem cacheConsistent_toggle (fetch : String × String → TableDetails)
    (b : Bool) (k : String × String) (c : MetaCache)
    (h : cacheConsistent fetch c) :
    cacheConsistent fetch (toggleDetails b fetch k c) := by
  intro k2 v hv
  by_cases hck : (c k).isSome
  · rw [toggleDetails, if_pos hck] at hv
    by_cases hk : k2 = k
    · simp [hk] at hv
    · simp [hk] at hv
      exact h k2 v hv
  · rw [toggleDetails, if_neg hck, loadTableDetails] at hv
    by_cases hb : b = false
    · rw [if_pos hb] at hv
      exact h k2 v hv
    · rw [if_neg hb, if_neg hck] at hv
      by_cases hk : k2 = k
      · subst hk
        simp at hv
        exact hv.symm
      · simp [hk] at hv
        exact h k2 v hv

theorem cacheConsistent_toggleRun (fetch : String × String → TableDetails)
    (ops : List (Bool × (String × String))) :
    cacheConsistent fetch (toggleRun fetch ops) := by
  have base : cacheConsistent fetch (fun _ => none) := by
    intro k v hv
    cases hv
  suffices hgen : ∀ (l : List (Bool × (String × String))) (c : MetaCache),
      cacheConsistent fetch c →
      cacheConsistent fetch
        (l.foldl (fun c p => toggleDetails p.1 fetch p.2 c) c) by
    exact hgen ops (fun _ => none) base
  intro l
  induction l with
  | nil => exact fun c hc => hc
  | cons p rest ih =>
      exact fun c hc => ih _ (cacheConsistent_toggle fetch p.1 p.2 c hc)

theorem toggleDetails_twice (fetch : String × String → TableDetails)
    (k : String × String) (c : MetaCache)
    (h : ∀ v, c k = some v → v = fetch k) :
    toggleDetails true fetch k (toggleDetails true fetch k c) = c := by
  funext k2
  cases hc : c k with
  | none =>
      by_cases hk : k2 = k <;>
        simp [toggleDetails, loadTableDetails, hc, hk]
  | some v =>
      have hv : v = fetch k := h v hc
      by_cases hk : k2 = k <;>
        simp [toggleDetails, loadTableDetails, hc, hk, hv]

/-- Claim C7: for every object key and every metadata-cache state the session
can build (toggles from the empty cache, which reloads restart), given an open
connection and a deterministic Data Provider, toggling the details of that
object twice returns the cache to its state before the first toggle —
expand then collapse, or collapse then re-expand. -/
theorem C7_toggle_twice_preserves_cache (fetch : String × String → TableDetails)
    (k : String × String) (ops : List (Bool × (String × String))) :
    toggleDetails true fetch k (toggleDetails true fetch k (toggleRun fetch ops)) =
      toggleRun fetch ops :=
  toggleDetails_twice fetch k (toggleRun fetch ops)
    (fun v hv => cacheConsistent_toggleRun fetch ops k v hv)

/-! ### SQL history navigation lemmas -/

theorem snapshotEdit_idx (s : SqlHistoryState) :
    (snapshotEdit s).historyIndex = s.historyIndex := by
  unfold snapshotEdit
  split
  · split <;> rfl
  · rfl

theorem snapshotEdit_len (s : SqlHistoryState) :
    s.history.length ≤ (snapshotEdit s).history.length := by
  unfold snapshotEdit
  split
  · split
    · simp
    · exact le_refl _
  · exact le_refl _

theorem snapshotEdit_nonneg (s : SqlHistoryState) (h : 0 ≤ s.historyIndex) :
    snapshotEdit s = s := by
  unfold snapshotEdit
  rw [if_neg (by omega)]

theorem olderMove_idx (origIdx : Int) (s1 : SqlHistoryState) :
    (olderMove origIdx s1).historyIndex =
      min ((s1.history.length : Int) - 1) (origIdx + 1) := by
  unfold olderMove
  split <;> rfl

theorem olderMove_hist (origIdx : Int) (s1 : SqlHistoryState) :
    (olderMove origIdx s1).history = s1.history := by
  unfold olderMove
  split <;> rfl

theorem historyInv_older (s : SqlHistoryState) (h : historyInv s) :
    historyInv (sqlHistoryOlder s) := by
  obtain ⟨h1, h2⟩ := h
  by_cases he : s.history.isEmpty
  · rw [sqlHistoryOlder, if_pos he]
    exact ⟨h1, h2⟩
  · rw [sqlHistoryOlder, if_neg he]
    have hlen : 1 ≤ s.history.length := by
      cases hl : s.history with
      | nil => simp [hl] at he
      | cons a t => simp [hl]
    have hlen1 : 1 ≤ (snapshotEdit s).history.length :=
      le_trans hlen (snapshotEdit_len s)
    constructor
    · rw [olderMove_idx]
      omega
    · rw [olderMove_idx, olderMove_hist]
      omega

theorem historyInv_olderIter (h : List String) (b : String) (n : Nat) :
    historyInv (olderIter h b n) := by
  induction n with
  | zero =>
      constructor
      · show (-1 : Int) ≤ -1
        omega
      · show (-1 : Int) ≤ (h.length : Int) - 1
        omega
  | succ n ih => exact historyInv_older _ ih

theorem older_at_oldest (s : SqlHistoryState) (hne : s.history ≠ [])
    (hidx : s.historyIndex = (s.history.length : Int) - 1) :
    (sqlHistoryOlder s).historyIndex = s.historyIndex ∧
    (sqlHistoryOlder s).history = s.history := by
  have he : s.history.isEmpty = false := by
    cases hl : s.history with
    | nil => exact absurd hl hne
    | cons a t => rfl
  have hlen : 1 ≤ s.history.length := by
    cases hl : s.history with
    | nil => exact absurd hl hne
    | cons a t => simp [hl]
  have hge : 0 ≤ s.historyIndex := by omega
  rw [sqlHistoryOlder, if_neg (by simp [he]), snapshotEdit_nonneg s hge]
  constructor
  · rw [olderMove_idx]
    omega
  · rw [olderMove_hist]

theorem older_snapshot (s : SqlHistoryState) (hne : s.history ≠ [])
    (hidx : s.historyIndex = -1) (hbuf : pyStrip s.buffer ≠ "")
    (hlast : s.history.getLast? ≠ some (pyStrip s.buffer)) :
    (sqlHistoryOlder s).history = s.history ++ [pyStrip s.buffer] := by
  have he : s.history.isEmpty = false := by
    cases hl : s.history with
    | nil => exact absurd hl hne
    | cons a t => rfl
  rw [sqlHistoryOlder, if_neg (by simp [he])]
  have hs : snapshotEdit s = { s with history := s.history ++ [pyStrip s.buffer] } := by
    unfold snapshotEdit
    rw [if_pos (by omega), if_pos ⟨hbuf, hlast⟩]
  rw [hs, olderMove_hist]

/-- Claim C8: over any number of "older" steps after entering the SQL editor,
the history cursor stays within [-1, historyLength − 1]; an "older" step at
the oldest entry changes neither the cursor nor the history; and an "older"
step taken at cursor -1, when a most recent history entry exists and the
stripped edit buffer is non-empty and distinct from it, first appends that
buffer to the history. -/
theorem C8_history_cursor_bounds :
    (∀ (h : List String) (b : String) (n : Nat),
      -1 ≤ (olderIter h b n).historyIndex ∧
      (olderIter h b n).historyIndex ≤ ((olderIter h b n).history.length : Int) - 1) ∧
    (∀ s : SqlHistoryState, s.history ≠ [] →
      s.historyIndex = (s.history.length : Int) - 1 →
      (sqlHistoryOlder s).historyIndex = s.historyIndex ∧
      (sqlHistoryOlder s).history = s.history) ∧
    (∀ s : SqlHistoryState, s.history ≠ [] → s.historyIndex = -1 →
      pyStrip s.buffer ≠ "" → s.history.getLast? ≠ some (pyStrip s.buffer) →
      (sqlHistoryOlder s).history = s.history ++ [pyStrip s.buffer]) :=
  ⟨historyInv_olderIter, older_at_oldest, older_snapshot⟩

/-- Concrete instantiation of `C8_history_cursor_bounds`: three "older" steps
over a one-entry history stay in bounds; "older" at the oldest entry is a
no-op on cursor and history; "older" at -1 with a distinct non-empty buffer
snapshots it. -/
theorem C8_history_cursor_bounds_witness :
    (-1 ≤ (olderIter ["select 1"] "select 2" 3).historyIndex ∧
      (olderIter ["select 1"] "select 2" 3).historyIndex ≤
        ((olderIter ["select 1"] "select 2" 3).history.length : Int) - 1) ∧
    (sqlHistoryOlder ⟨["select 1"], 0, "x"⟩).history = ["select 1"] ∧
    (sqlHistoryOlder ⟨["select 1"], -1, "select 2"⟩).history =
      ["select 1", "select 2"] :=
  ⟨C8_history_cursor_bounds.1 ["select 1"] "select 2" 3,
   (C8_history_cursor_bounds.2.1 ⟨["select 1"], 0, "x"⟩ (by decide) (by decide)).2,
   by
     have h := C8_history_cursor_bounds.2.2 ⟨["select 1"], -1, "select 2"⟩
       (by decide) (by decide) (by decide) (by decide)
     simpa using h⟩

/-! ### Export actions -/

/-- Claim C10: invoking CSV or JSON export while the current data page has no
rows or no columns writes no file and changes no session state other than
appending a "No data to export" message to the (bounded) status log. -/
theorem C10_export_no_data (connName tableName tsFile tsLog : String)
    (s : ExportState) (h : s.rows = [] ∨ s.columns = []) :
    exportToCsv connName tableName tsFile tsLog s =
      ({ s with statusLog := pushStatus tsLog "No data to export" s.statusLog },
        none) ∧
    exportToJson connName tableName tsFile tsLog s =
      ({ s with statusLog := pushStatus tsLog "No data to export" s.statusLog },
        none) := by
  have hb : (s.rows.isEmpty ∨ s.columns.isEmpty : Prop) := by
    rcases h with h | h <;> simp [h]
  rw [exportToCsv, if_pos hb, exportToJson, if_pos hb]
  exact ⟨rfl, rfl⟩

/-- Concrete instantiation of `C10_export_no_data`: an empty page with one
column exports nothing. -/
theorem C10_export_no_data_witness :
    exportToCsv "local" "users" "20260101_120000" "12:00:00"
      ⟨[], ["id"], []⟩ =
      (⟨[], ["id"], pushStatus "12:00:00" "No data to export" []⟩, none) :=
  (C10_export_no_data "local" "users" "20260101_120000" "12:00:00"
    ⟨[], ["id"], []⟩ (Or.inl rfl)).1

end Dbrowse
